import Mathlib

/-!
# Verification of the sns-platform activity-feed and engagement-counter core

Shallow embedding of the Go repository `ilhamosaurus/sns-platform`:
the data model (`internal/model`), the counter-update repositories
(`userRepository.UpdateFollowCount`, `userRepository.UpdatePostCount`,
`postRepository.UpdatePostCount`), the follow repository, the reaction
creation hook, the feed reader (`feedRepository.GetUserFeed`,
`GetExploreFeed`, `GetPostWithDetails`, `getCommentsWithReplies`) and a
spec-modelled fan-out writer.  Machine integers become `Int`, SQL rows
become Lean structures, tables become lists, soft deletion becomes an
`Option Nat` timestamp, and each SQL statement becomes a pure function
on the database state.
-/

namespace SNS

/-- Embeds `types.MediaType` (src/pkg/types/types.go): image, video, text, unknown. -/
inductive MediaType where
  | unknown
  | image
  | video
  | text
deriving DecidableEq, Repr

/-- Embeds `types.ReactionType` (src/pkg/types/types.go): like, love, haha, wow, sad, angry. -/
inductive ReactionType where
  | unknown
  | like
  | love
  | haha
  | wow
  | sad
  | angry
deriving DecidableEq, Repr

/-- Embeds `ReactionType.String` (src/pkg/types/types.go, lines 52-69). -/
def reactionTypeString : ReactionType → String
  | .like => "like"
  | .love => "love"
  | .haha => "haha"
  | .wow => "wow"
  | .sad => "sad"
  | .angry => "angry"
  | .unknown => "unknown"

/-- Embeds `types.Action` (src/pkg/types/types.go, lines 165-180). -/
inductive Action where
  | unknown
  | following
  | unfollowing
  | followed
  | unfollowed
  | created
  | deleted
  | liked
  | unliked
  | commented
  | uncommented
  | shared
deriving DecidableEq, Repr

/-- Embeds `Action.String` (src/pkg/types/types.go, lines 182-209). -/
def actionString : Action → String
  | .following => "following"
  | .unfollowing => "unfollowing"
  | .followed => "followed"
  | .unfollowed => "unfollowed"
  | .created => "created"
  | .deleted => "deleted"
  | .liked => "liked"
  | .unliked => "unliked"
  | .commented => "commented"
  | .uncommented => "uncommented"
  | .shared => "shared"
  | .unknown => "unknown"

/-- Error taxonomy of the core (spec section 7): `invalidData` embeds
`gorm.ErrInvalidData` returned by the `BeforeCreate` hooks, `uniqueViolation`
embeds the unique-index breach the store reports on a duplicate row. -/
inductive Err where
  | invalidData
  | uniqueViolation
  | notFound
  | storeUnavailable
deriving DecidableEq, Repr

/-- Spec section 7 groups uniqueness and self-reference breaches under
`ConstraintViolation`: both hook rejections (`gorm.ErrInvalidData`) and
unique-index violations fall in that class. -/
def Err.isConstraintViolation : Err → Bool
  | .invalidData => true
  | .uniqueViolation => true
  | .notFound => false
  | .storeUnavailable => false

/-- Embeds `model.User` (src/internal/model/user.go): identity and the three
maintained counters; `deletedAt` embeds `gorm.DeletedAt` soft deletion. -/
structure User where
  id : Int
  username : String
  fullName : String
  avatarUrl : String
  isVerified : Bool
  isPrivate : Bool
  followingCount : Int
  followerCount : Int
  postCount : Int
  createdAt : Nat
  deletedAt : Option Nat
deriving DecidableEq, Repr

/-- Embeds `model.Post` (src/unnamed/part_000): owner, media descriptor,
visibility and the four maintained counters. -/
structure Post where
  id : Int
  userId : Int
  content : String
  mediaType : MediaType
  mediaUrl : String
  isPublic : Bool
  viewCount : Int
  shareCount : Int
  likeCount : Int
  commentCount : Int
  createdAt : Nat
  deletedAt : Option Nat
deriving DecidableEq, Repr

/-- Embeds `model.Comment` (src/internal/model/comment.go): a tree via the
optional parent id (`none` = top-level comment). -/
structure Comment where
  id : Int
  postId : Int
  userId : Int
  parentId : Option Int
  content : String
  likesCount : Int
  repliesCount : Int
  createdAt : Nat
  deletedAt : Option Nat
deriving DecidableEq, Repr

/-- Embeds `model.Reaction` (src/internal/model/reaction.go): the target is at
most one of a post id and a comment id, the hook below enforces exactly one. -/
structure Reaction where
  id : Int
  userId : Int
  postId : Option Int
  commentId : Option Int
  type : ReactionType
  createdAt : Nat
  deletedAt : Option Nat
deriving DecidableEq, Repr

/-- Embeds `model.Follow` (src/unnamed/part_001): a directed edge with a
unique index on (follower_id, following_id). -/
structure Follow where
  followerId : Int
  followingId : Int
  createdAt : Nat
  deletedAt : Option Nat
deriving DecidableEq, Repr

/-- Embeds `model.ActivityFeed` (src/internal/model/message.go): the
materialized tuple (subscriber, post, author, post creation timestamp). -/
structure ActivityFeed where
  userId : Int
  postId : Int
  authorId : Int
  postCreated : Nat
  deletedAt : Option Nat
deriving DecidableEq, Repr

/-- The relational store: one list per table of the embedded schema. -/
structure DB where
  users : List User
  posts : List Post
  comments : List Comment
  reactions : List Reaction
  follows : List Follow
  feeds : List ActivityFeed
deriving DecidableEq, Repr

/-! ## Ordering infrastructure

`ORDER BY` clauses are embedded as an insertion sort over a boolean
comparison relation; `r a b = true` means `a` may stay before `b`. -/

/-- Insert `x` into `l` keeping the relation `r` between every adjacent pair. -/
def insertSorted (r : α → α → Bool) (x : α) : List α → List α
  | [] => [x]
  | y :: ys => if r x y then x :: y :: ys else y :: insertSorted r x ys

/-- Insertion sort by the boolean comparison `r`. -/
def sortBy (r : α → α → Bool) : List α → List α
  | [] => []
  | x :: xs => insertSorted r x (sortBy r xs)

/-! ## Counter Engine

Embeddings of the three SQL counter updates.  Each `UPDATE ... SET col =
expr WHERE key AND deleted_at IS NULL` becomes a per-row transformer plus
a table-level map over the matching live rows. -/

/-- Per-row effect of `userRepository.UpdateFollowCount`
(src/unnamed/part_002, lines 96-115): `followed`/`unfollowed` add or
subtract 1 from `follower_count`, `following`/`unfollowing` from
`following_count`; the SQL has no clamp on the subtraction. -/
def followCountRow (u : User) : Action → User
  | .followed => { u with followerCount := u.followerCount + 1 }
  | .unfollowed => { u with followerCount := u.followerCount - 1 }
  | .following => { u with followingCount := u.followingCount + 1 }
  | .unfollowing => { u with followingCount := u.followingCount - 1 }
  | _ => u

/-- The `UPDATE users SET ... WHERE username = ? AND deleted_at IS NULL`
statement of `UpdateFollowCount`, as one atomic map over the table. -/
def followCountTable (users : List User) (username : String) (a : Action) : List User :=
  users.map fun u =>
    if u.username = username ∧ u.deletedAt = none then followCountRow u a else u

/-- Embeds `userRepository.UpdateFollowCount` (src/unnamed/part_002, lines
96-115): an unrecognized action returns the error before any update; a
recognized one updates every live row with the given username. -/
def updateFollowCount (users : List User) (username : String) (a : Action) :
    Except String (List User) :=
  match a with
  | .followed | .unfollowed | .following | .unfollowing =>
      .ok (followCountTable users username a)
  | _ => .error ("invalid action type: " ++ actionString a)

/-- Per-row effect of `userRepository.UpdatePostCount`
(src/unnamed/part_002, lines 117-129): `created` adds 1 to `post_count`,
`deleted` subtracts 1, again with no clamp in the SQL. -/
def userPostCountRow (u : User) : Action → User
  | .created => { u with postCount := u.postCount + 1 }
  | .deleted => { u with postCount := u.postCount - 1 }
  | _ => u

/-- Embeds `userRepository.UpdatePostCount` (src/unnamed/part_002, lines
117-129). -/
def updateUserPostCount (users : List User) (id : Int) (a : Action) :
    Except String (List User) :=
  match a with
  | .created | .deleted =>
      .ok (users.map fun u =>
        if u.id = id ∧ u.deletedAt = none then userPostCountRow u a else u)
  | _ => .error ("invalid action type: " ++ actionString a)

/-- Per-row effect of `postRepository.UpdatePostCount`
(src/unnamed/part_004, lines 67-90): increments are plain `+ 1`, the two
decrements are `GREATEST(col - 1, 0)`, and the `default` branch of the Go
switch returns a nil error without issuing any update. -/
def postCountRow (p : Post) : Action → Post
  | .liked => { p with likeCount := p.likeCount + 1 }
  | .unliked => { p with likeCount := max (p.likeCount - 1) 0 }
  | .commented => { p with commentCount := p.commentCount + 1 }
  | .uncommented => { p with commentCount := max (p.commentCount - 1) 0 }
  | .shared => { p with shareCount := p.shareCount + 1 }
  | _ => p

/-- Embeds `postRepository.UpdatePostCount` (src/unnamed/part_004, lines
67-90); total because the Go `default` branch succeeds with no update. -/
def updatePostCount (posts : List Post) (id : Int) (a : Action) : List Post :=
  posts.map fun p => if p.id = id ∧ p.deletedAt = none then postCountRow p a else p

/-- A sequence of per-row counter adjustments on one post, each one the
atomic effect of a single `UPDATE` statement. -/
def applyPostActions (p : Post) (acts : List Action) : Post :=
  acts.foldl postCountRow p

/-- A sequence of per-row follow-counter adjustments on one user. -/
def applyFollowActions (u : User) (acts : List Action) : User :=
  acts.foldl followCountRow u

/-- Signed delta an action contributes to `follower_count` in
`UpdateFollowCount`. -/
def followerDelta : Action → Int
  | .followed => 1
  | .unfollowed => -1
  | _ => 0

/-- Signed delta an action contributes to `following_count` in
`UpdateFollowCount`. -/
def followingDelta : Action → Int
  | .following => 1
  | .unfollowing => -1
  | _ => 0

/-- Sum of the `follower_count` deltas of a list of actions. -/
def followerDeltaSum (acts : List Action) : Int :=
  (acts.map followerDelta).sum

/-- Sum of the `following_count` deltas of a list of actions. -/
def followingDeltaSum (acts : List Action) : Int :=
  (acts.map followingDelta).sum

/-- Signed delta an action contributes to `like_count` in
`postRepository.UpdatePostCount`, ignoring the `GREATEST` clamp. -/
def likeDelta : Action → Int
  | .liked => 1
  | .unliked => -1
  | _ => 0

/-- Sum of the unclamped `like_count` deltas of a list of actions. -/
def likeDeltaSum (acts : List Action) : Int :=
  (acts.map likeDelta).sum

/-! ## Reaction Validator -/

/-- Embeds `Reaction.BeforeCreate` (src/internal/model/reaction.go, lines
21-26): both targets nil or both non-nil is rejected with
`gorm.ErrInvalidData`. -/
def reactionBeforeCreate (r : Reaction) : Option Err :=
  if (r.postId = none ∧ r.commentId = none) ∨ (r.postId ≠ none ∧ r.commentId ≠ none) then
    some .invalidData
  else
    none

/-- Modelled from the spec: the reaction-creation service wrapper is absent
from src (only the `BeforeCreate` hook and the counter repositories are
present).  Per spec sections 2 and 4.3, creation runs the validator first
and only on success durably inserts the row and triggers the Counter
Engine: a `like` on a post bumps the post's `like_count` through
`postRepository.UpdatePostCount`, a `like` on a comment bumps the
comment's `likes_count`.  A hook error aborts the insert (GORM semantics)
with zero side effects. -/
def createReaction (db : DB) (r : Reaction) : DB × Option Err :=
  match reactionBeforeCreate r with
  | some e => (db, some e)
  | none =>
      let posts :=
        match r.postId with
        | some pid => if r.type = .like then updatePostCount db.posts pid .liked else db.posts
        | none => db.posts
      let comments :=
        match r.commentId with
        | some cid =>
            if r.type = .like then
              db.comments.map fun c =>
                if c.id = cid ∧ c.deletedAt = none then
                  { c with likesCount := c.likesCount + 1 }
                else c
            else db.comments
        | none => db.comments
      ({ db with reactions := db.reactions ++ [r], posts := posts, comments := comments }, none)

/-! ## Graph Store -/

/-- Embeds `Follow.BeforeCreate` (src/unnamed/part_001, lines 15-20): a
self-follow is rejected with `gorm.ErrInvalidData`. -/
def followBeforeCreate (f : Follow) : Option Err :=
  if f.followerId = f.followingId then some .invalidData else none

/-- Embeds `followRepository.Follow`
(src/internal/module/follow/repository/follow_repository.go, lines 21-27)
together with the store's unique index `idx_follower_following` on
(follower_id, following_id) declared in src/unnamed/part_001: the hook
runs first, then the insert fails with a uniqueness violation when a row
with the same ordered pair already exists. -/
def followCreate (db : DB) (followerId followingId : Int) (now : Nat) : DB × Option Err :=
  let f : Follow :=
    { followerId := followerId, followingId := followingId, createdAt := now, deletedAt := none }
  match followBeforeCreate f with
  | some e => (db, some e)
  | none =>
      if db.follows.any fun g =>
          decide (g.followerId = followerId ∧ g.followingId = followingId) then
        (db, some .uniqueViolation)
      else
        ({ db with follows := db.follows ++ [f] }, none)

/-- Embeds `followRepository.Unfollow`
(src/internal/module/follow/repository/follow_repository.go, lines 29-31):
a soft delete of the live rows matching the pair; GORM reports no error
when zero rows match. -/
def unfollowRepo (db : DB) (followerId followingId : Int) (now : Nat) : DB × Option Err :=
  ({ db with
      follows := db.follows.map fun f =>
        if f.followerId = followerId ∧ f.followingId = followingId ∧ f.deletedAt = none then
          { f with deletedAt := some now }
        else f },
    none)

/-! ## Feed Fan-out Writer -/

/-- The live followers of an author: rows of `follows` pointing at the
author that are not soft-deleted (spec section 4.4). -/
def followersOf (db : DB) (authorId : Int) : List Follow :=
  db.follows.filter fun f => decide (f.followingId = authorId ∧ f.deletedAt = none)

/-- The ActivityFeed row fan-out writes for one follower of a post's
author (src/internal/model/message.go, lines 22-37 fixes the shape). -/
def fanoutEntry (p : Post) (f : Follow) : ActivityFeed :=
  { userId := f.followerId, postId := p.id, authorId := p.userId,
    postCreated := p.createdAt, deletedAt := none }

/-- Modelled from the spec: the fan-out writer (`publish`) is absent from
src, which only contains the `ActivityFeed` model it writes.  Per spec
section 4.4, publishing a post inserts the post and one `ActivityFeed`
row per live follower of the author, snapshotting the follower set at
publish time; zero followers write zero rows and do not fail. -/
def publishPost (db : DB) (p : Post) : DB :=
  { db with
      posts := db.posts ++ [p],
      feeds := db.feeds ++ (followersOf db p.userId).map (fanoutEntry p) }

/-- The feed entries referencing a given post. -/
def entriesFor (db : DB) (postId : Int) : List ActivityFeed :=
  db.feeds.filter fun e => decide (e.postId = postId)

/-- A follow-graph mutation occurring after a publish. -/
inductive FollowOp where
  | follow (followerId followingId : Int) (now : Nat)
  | unfollow (followerId followingId : Int) (now : Nat)
deriving DecidableEq, Repr

/-- Apply one follow-graph mutation through the embedded repository. -/
def applyFollowOp (db : DB) : FollowOp → DB
  | .follow a b now => (followCreate db a b now).1
  | .unfollow a b now => (unfollowRepo db a b now).1

/-- Apply a sequence of follow-graph mutations. -/
def applyFollowOps (db : DB) (ops : List FollowOp) : DB :=
  ops.foldl applyFollowOp db

/-! ## Feed Reader -/

/-- Embeds `db.DatabaseType` (src/unnamed/part_006): the three storage
engines the db package supports.  The engine is ambient state of the
global `db` handle in the source; the embedding passes it explicitly. -/
inductive DatabaseType where
  | postgres
  | mysql
  | sqlite
deriving DecidableEq, Repr

/-- The integer GORM persists in the `type` column: `types.ReactionType`
is a `uint32` enum (src/pkg/types/types.go, lines 40-50, iota values) and
`model.Reaction` declares no serializer, so AutoMigrate creates an
integer column holding the raw value on every supported engine (the
`size:20` tag only selects an integer width). -/
def reactionTypeStored : ReactionType → Int
  | .unknown => 0
  | .like => 1
  | .love => 2
  | .haha => 3
  | .wow => 4
  | .sad => 5
  | .angry => 6

/-- Whether a query containing the comparison `type = 'like'` against the
integer `type` column executes at all: PostgreSQL fails to coerce the
non-numeric literal to integer and rejects the query at plan time, so
every such query errors; MySQL and SQLite execute it. -/
def likeJoinQueryRuns : DatabaseType → Bool
  | .postgres => false
  | .mysql => true
  | .sqlite => true

/-- Row semantics of the comparison `user_likes.type = 'like'` on the
engines that execute it, for a row whose stored kind is `t`: MySQL
coerces the non-numeric literal `'like'` to the integer 0 and compares
integers, so only a stored 0 (`unknown`) matches; SQLite compares the
integer value against the text value as never equal.  A stored `like`
(integer 1) never matches on any engine.  (On PostgreSQL the query never
reaches row evaluation — see `likeJoinQueryRuns`.) -/
def typeColEqLikeLit (engine : DatabaseType) (t : ReactionType) : Bool :=
  match engine with
  | .postgres => false
  | .mysql => decide (reactionTypeStored t = 0)
  | .sqlite => false

/-- The `LEFT JOIN reactions user_likes` condition shared verbatim by
`GetUserFeed`, `GetExploreFeed` and `GetPostWithDetails`
(src/unnamed/part_003): a non-deleted reaction row of the viewer on the
given post whose integer `type` column compares equal to the string
literal `'like'` under the engine's coercion rules; `has_user_liked` is
whether one exists. -/
def hasLikeReaction (engine : DatabaseType) (db : DB) (viewerId postId : Int) : Bool :=
  db.reactions.any fun rx =>
    decide (rx.postId = some postId ∧ rx.userId = viewerId ∧
      typeColEqLikeLit engine rx.type = true ∧ rx.deletedAt = none)

/-- Embeds `dto.FeedPost` (src/unnamed/part_005) together with the
`activity_feeds` row the home-timeline join started from. -/
structure FeedPost where
  entry : ActivityFeed
  post : Post
  author : User
  hasUserLiked : Bool
deriving DecidableEq, Repr

/-- One row of the `GetUserFeed` join (src/unnamed/part_003, lines 34-49):
`INNER JOIN posts` on the entry's post id with `posts.deleted_at IS NULL`,
`INNER JOIN users` on the post's author with `users.deleted_at IS NULL`,
and the shared like left-join. -/
def feedRowOf (engine : DatabaseType) (db : DB) (viewerId : Int) (e : ActivityFeed) :
    Option FeedPost :=
  (db.posts.find? fun p => decide (p.id = e.postId ∧ p.deletedAt = none)).bind fun p =>
    (db.users.find? fun u => decide (u.id = p.userId ∧ u.deletedAt = none)).map fun u =>
      ⟨e, p, u, hasLikeReaction engine db viewerId e.postId⟩

/-- The unordered row set of `GetUserFeed`: the subscriber's live
`activity_feeds` rows joined as in `feedRowOf`. -/
def userFeedRows (engine : DatabaseType) (db : DB) (userId : Int) : List FeedPost :=
  (db.feeds.filter fun e => decide (e.userId = userId ∧ e.deletedAt = none)).filterMap
    (feedRowOf engine db userId)

/-- `ORDER BY activity_feeds.post_created DESC` of `GetUserFeed`. -/
def feedDescRel (a b : FeedPost) : Bool :=
  decide (b.entry.postCreated ≤ a.entry.postCreated)

/-- Embeds `feedRepository.GetUserFeed` (src/unnamed/part_003, lines
30-60): join, order by the entry's `post_created` descending, then
`LIMIT limit OFFSET offset`.  Row semantics for the engines on which the
query executes (`likeJoinQueryRuns`); on PostgreSQL the embedded
`type = 'like'` comparison aborts the whole query instead. -/
def getUserFeed (engine : DatabaseType) (db : DB) (userId : Int) (limit offset : Nat) :
    List FeedPost :=
  (((sortBy feedDescRel (userFeedRows engine db userId)).drop offset).take limit)

/-! ### Explore feed

`GetExploreFeed` (src/unnamed/part_003, lines 63-94) is embedded at the
SQL-structure level: the table aliases its `SELECT` list references
against the aliases its `FROM`/`JOIN` clauses actually bind. -/

/-- Aliases bound by the explore query: `Table("posts")` plus the two
`Joins` calls (`users`, `reactions user_likes`); no join binds
`like_counts` or `comment_counts`. -/
def exploreBoundAliases : List String := ["posts", "users", "user_likes"]

/-- Table aliases referenced by the explore query's `SELECT` list,
including `like_counts.count` and `comment_counts.count` inside the
`engagement_score` expression. -/
def exploreSelectAliases : List String :=
  ["posts", "users", "user_likes", "like_counts", "comment_counts"]

/-- A query is structurally valid only when every alias its select list
references is bound in its FROM/JOIN clauses. -/
def exploreQueryValid : Bool :=
  exploreSelectAliases.all fun a => exploreBoundAliases.contains a

/-- The engagement score expression of the explore `SELECT`
(src/unnamed/part_003, line 77): likes weighted 3, comments 5, shares 2. -/
def engagementScore (likes comments shares : Int) : Int :=
  likes * 3 + comments * 5 + shares * 2

/-- `ORDER BY engagement_score DESC, posts.created_at DESC` of the explore
query: higher score first, ties by creation time descending. -/
def exploreOrderRel (a b : Int × Nat) : Bool :=
  decide (b.1 < a.1 ∨ (a.1 = b.1 ∧ b.2 ≤ a.2))

/-! ### Post detail and comment threads -/

/-- The comment-level variant of the shared like left-join
(src/unnamed/part_003, lines 160-163), carrying the same integer-column
against `'like'`-literal comparison as `hasLikeReaction`. -/
def hasCommentLike (engine : DatabaseType) (db : DB) (viewerId commentId : Int) : Bool :=
  db.reactions.any fun rx =>
    decide (rx.commentId = some commentId ∧ rx.userId = viewerId ∧
      typeColEqLikeLit engine rx.type = true ∧ rx.deletedAt = none)

/-- Embeds `dto.CommentWithReplies` (src/unnamed/part_005): a comment, its
author, the viewer's like flag and the nested replies. -/
inductive CommentNode where
  | mk (comment : Comment) (author : User) (hasUserLiked : Bool)
      (replies : List CommentNode)

/-- The comment carried by a node. -/
def CommentNode.comment : CommentNode → Comment
  | .mk c _ _ _ => c

/-- The author carried by a node. -/
def CommentNode.author : CommentNode → User
  | .mk _ u _ _ => u

/-- The viewer-like flag carried by a node. -/
def CommentNode.hasUserLiked : CommentNode → Bool
  | .mk _ _ h _ => h

/-- The nested replies carried by a node. -/
def CommentNode.replies : CommentNode → List CommentNode
  | .mk _ _ _ r => r

/-- `ORDER BY comments.created_at ASC` over the joined rows. -/
def commentAscRel (a b : Comment × User) : Bool :=
  decide (a.1.createdAt ≤ b.1.createdAt)

/-- One level of the recursive comment query (src/unnamed/part_003, lines
150-171): the post's live comments with the given parent id, inner-joined
to their live author, ordered by creation time ascending. -/
def commentLevel (db : DB) (postId : Int) (parentId : Option Int) : List (Comment × User) :=
  sortBy commentAscRel
    ((db.comments.filter fun c =>
        decide (c.postId = postId ∧ c.deletedAt = none ∧ c.parentId = parentId)).filterMap
      fun c =>
        (db.users.find? fun u => decide (u.id = c.userId ∧ u.deletedAt = none)).map
          fun u => (c, u))

/-- Embeds `feedRepository.getCommentsWithReplies` (src/unnamed/part_003,
lines 147-187).  The Go function recurses on the children fetched per
parent id; the embedding makes the recursion depth explicit through a
fuel argument, which the top-level wrapper sets larger than the number of
comments so that every terminating run of the source is reproduced. -/
def getCommentsWithReplies : Nat → DatabaseType → DB → Int → Int → Option Int → List CommentNode
  | 0, _, _, _, _, _ => []
  | fuel + 1, engine, db, postId, viewerId, parentId =>
      (commentLevel db postId parentId).map fun cu =>
        .mk cu.1 cu.2 (hasCommentLike engine db viewerId cu.1.id)
          (getCommentsWithReplies fuel engine db postId viewerId (some cu.1.id))

/-- The Thread Assembler entry point: the forest of top-level comments
(`parent_id IS NULL`), as called from `GetPostWithDetails`
(src/unnamed/part_003, line 138). -/
def assembleComments (engine : DatabaseType) (db : DB) (postId viewerId : Int) :
    List CommentNode :=
  getCommentsWithReplies (db.comments.length + 1) engine db postId viewerId none

/-- Embeds `dto.PostDetail` (src/unnamed/part_005): the joined post, its
author, the viewer's like flag, a per-kind reaction count and the
assembled comment forest. -/
structure PostDetail where
  post : Post
  author : User
  hasUserLiked : Bool
  reactionCount : ReactionType → Nat
  comments : List CommentNode

/-- The per-kind reaction count of `GetPostWithDetails`
(src/unnamed/part_003, lines 126-135): live reactions on the post grouped
by type. -/
def reactionSummary (db : DB) (postId : Int) (t : ReactionType) : Nat :=
  (db.reactions.filter fun rx =>
    decide (rx.postId = some postId ∧ rx.deletedAt = none ∧ rx.type = t)).length

/-- Embeds `feedRepository.GetPostWithDetails` (src/unnamed/part_003,
lines 96-144): the live post inner-joined to its live author with the
shared like left-join, the reaction summary, and the comment forest. -/
def getPostWithDetails (engine : DatabaseType) (db : DB) (postId viewerId : Int) :
    Option PostDetail :=
  (db.posts.find? fun p => decide (p.id = postId ∧ p.deletedAt = none)).bind fun p =>
    (db.users.find? fun u => decide (u.id = p.userId ∧ u.deletedAt = none)).map fun u =>
      ⟨p, u, hasLikeReaction engine db viewerId postId, reactionSummary db postId,
        assembleComments engine db postId viewerId⟩

/-! ## Concrete sample data

Closed rows used by the counterexamples and the witnesses. -/

/-- A user row with all counters at the column defaults (0). -/
def mkUser (id : Int) (username : String) : User :=
  { id := id, username := username, fullName := "", avatarUrl := "",
    isVerified := false, isPrivate := false, followingCount := 0,
    followerCount := 0, postCount := 0, createdAt := 0, deletedAt := none }

/-- A public text post with all counters at the column defaults (0). -/
def mkPost (id userId : Int) (createdAt : Nat) : Post :=
  { id := id, userId := userId, content := "", mediaType := .text,
    mediaUrl := "", isPublic := true, viewCount := 0, shareCount := 0,
    likeCount := 0, commentCount := 0, createdAt := createdAt, deletedAt := none }

/-- A comment row. -/
def mkComment (id postId userId : Int) (parentId : Option Int) (createdAt : Nat) : Comment :=
  { id := id, postId := postId, userId := userId, parentId := parentId,
    content := "", likesCount := 0, repliesCount := 0, createdAt := createdAt,
    deletedAt := none }

/-- The empty store. -/
def emptyDB : DB :=
  { users := [], posts := [], comments := [], reactions := [], follows := [], feeds := [] }

/-- A store holding one live follow edge 1 → 2. -/
def followEdgeDB : DB :=
  { emptyDB with
      users := [mkUser 1 "alice", mkUser 2 "bob"],
      follows := [{ followerId := 1, followingId := 2, createdAt := 0, deletedAt := none }] }

/-- A store where the only follow edge 1 → 2 is already soft-deleted. -/
def unfollowedDB : DB :=
  { emptyDB with
      users := [mkUser 1 "alice", mkUser 2 "bob"],
      follows := [{ followerId := 1, followingId := 2, createdAt := 0, deletedAt := some 4 },
                  { followerId := 2, followingId := 1, createdAt := 0, deletedAt := none }] }

/-- A reaction of the given type by user `uid` on post `pid`. -/
def mkPostReaction (id uid pid : Int) (t : ReactionType) : Reaction :=
  { id := id, userId := uid, postId := some pid, commentId := none, type := t,
    createdAt := 0, deletedAt := none }

/-- A reaction with neither target set. -/
def orphanReaction : Reaction :=
  { id := 1, userId := 1, postId := none, commentId := none, type := .like,
    createdAt := 0, deletedAt := none }

/-- A reaction with both targets set. -/
def dualReaction : Reaction :=
  { id := 2, userId := 1, postId := some 10, commentId := some 20, type := .love,
    createdAt := 0, deletedAt := none }

/-- Home-timeline sample: subscriber 1 has two feed entries; the post of the
second was soft-deleted after fan-out; the subscriber liked post 10 and an
other user loved it. -/
def timelineDB : DB :=
  { emptyDB with
      users := [mkUser 1 "alice", mkUser 2 "bob"],
      posts := [mkPost 10 2 100, { mkPost 11 2 200 with deletedAt := some 300 }],
      reactions := [mkPostReaction 50 1 10 .like, mkPostReaction 51 2 10 .love],
      feeds := [{ userId := 1, postId := 10, authorId := 2, postCreated := 100, deletedAt := none },
                { userId := 1, postId := 11, authorId := 2, postCreated := 200, deletedAt := none }] }

/-- Fan-out sample: author 2 has two live followers (1 and 3) and one
soft-deleted follower edge (4). -/
def fanoutDB : DB :=
  { emptyDB with
      users := [mkUser 1 "alice", mkUser 2 "bob", mkUser 3 "carol", mkUser 4 "dave"],
      follows := [{ followerId := 1, followingId := 2, createdAt := 0, deletedAt := none },
                  { followerId := 3, followingId := 2, createdAt := 1, deletedAt := none },
                  { followerId := 4, followingId := 2, createdAt := 2, deletedAt := some 3 }] }

/-- Thread sample: post 1 carries comments A(id 1, top) ← B(id 2) ← C(id 3). -/
def threadDB : DB :=
  { emptyDB with
      users := [mkUser 7 "ann", mkUser 8 "ben"],
      posts := [mkPost 1 7 10],
      comments := [mkComment 1 1 7 none 10, mkComment 2 1 8 (some 1) 20,
                   mkComment 3 1 7 (some 2) 30] }

/-! ## Supporting lemmas -/

/-- A successful `find?` over a decided proposition yields the proposition. -/
theorem find?_decide_prop {l : List α} {q : α → Prop} [DecidablePred q] {x : α}
    (h : l.find? (fun y => decide (q y)) = some x) : q x := by
  have h2 := List.find?_some h
  exact of_decide_eq_true h2

/-- `find?` on a list with a unique satisfying element returns that element. -/
theorem find?_eq_some_of_unique {l : List α} {p : α → Bool} {x : α}
    (hx : x ∈ l) (hpx : p x = true) (huniq : ∀ y ∈ l, p y = true → y = x) :
    l.find? p = some x := by
  induction l with
  | nil => cases hx
  | cons a as ih =>
      by_cases hpa : p a
      · have hax : a = x := huniq a (List.mem_cons_self a as) hpa
        subst hax
        simp [List.find?, hpa]
      · have hax : x ∈ as := by
          rcases List.mem_cons.mp hx with rfl | h
          · exact absurd hpx hpa
          · exact h
        have := ih hax (fun y hy hpy => huniq y (List.mem_cons_of_mem a hy) hpy)
        simpa [List.find?, hpa] using this

theorem mem_insertSorted (r : α → α → Bool) (x : α) (l : List α) (a : α) :
    a ∈ insertSorted r x l ↔ a = x ∨ a ∈ l := by
  induction l with
  | nil => simp [insertSorted]
  | cons y ys ih =>
      by_cases h : r x y
      · simp [insertSorted, h]
      · simp only [insertSorted, if_neg h, List.mem_cons, ih]
        tauto

theorem mem_sortBy (r : α → α → Bool) (l : List α) (a : α) :
    a ∈ sortBy r l ↔ a ∈ l := by
  induction l with
  | nil => simp [sortBy]
  | cons x xs ih => simp [sortBy, mem_insertSorted, ih]

theorem pairwise_insertSorted (r : α → α → Bool)
    (htot : ∀ a b, r a b = true ∨ r b a = true)
    (htrans : ∀ a b c, r a b = true → r b c = true → r a c = true)
    (x : α) (l : List α) (h : l.Pairwise (fun a b => r a b = true)) :
    (insertSorted r x l).Pairwise (fun a b => r a b = true) := by
  induction l with
  | nil => simp [insertSorted]
  | cons y ys ih =>
      rcases h with - | ⟨hy, hys⟩
      by_cases hxy : r x y
      · rw [insertSorted, if_pos hxy]
        refine List.Pairwise.cons ?_ (List.Pairwise.cons hy hys)
        intro z hz
        rcases List.mem_cons.mp hz with rfl | hz
        · exact hxy
        · exact htrans x y z hxy (hy z hz)
      · rw [insertSorted, if_neg hxy]
        refine List.Pairwise.cons ?_ (ih hys)
        intro z hz
        rcases (mem_insertSorted r x ys z).mp hz with rfl | hz
        · rcases htot z y with h1 | h1
          · exact absurd h1 hxy
          · exact h1
        · exact hy z hz

theorem pairwise_sortBy (r : α → α → Bool)
    (htot : ∀ a b, r a b = true ∨ r b a = true)
    (htrans : ∀ a b c, r a b = true → r b c = true → r a c = true)
    (l : List α) : (sortBy r l).Pairwise (fun a b => r a b = true) := by
  induction l with
  | nil => simp [sortBy]
  | cons x xs ih => exact pairwise_insertSorted r htot htrans x (sortBy r xs) ih

theorem followCountRow_counts (u : User) (a : Action) :
    (followCountRow u a).followerCount = u.followerCount + followerDelta a ∧
    (followCountRow u a).followingCount = u.followingCount + followingDelta a ∧
    (followCountRow u a).username = u.username ∧
    (followCountRow u a).deletedAt = u.deletedAt := by
  cases a <;> simp [followCountRow, followerDelta, followingDelta] <;> omega

theorem followCountRow_comm (u : User) (a1 a2 : Action) :
    followCountRow (followCountRow u a1) a2 = followCountRow (followCountRow u a2) a1 := by
  cases a1 <;> cases a2 <;> simp [followCountRow]

theorem applyFollowActions_counts (u : User) (acts : List Action) :
    (applyFollowActions u acts).followerCount = u.followerCount + followerDeltaSum acts ∧
    (applyFollowActions u acts).followingCount = u.followingCount + followingDeltaSum acts := by
  induction acts generalizing u with
  | nil => simp [applyFollowActions, followerDeltaSum, followingDeltaSum]
  | cons a acts ih =>
      have harow := followCountRow_counts u a
      have hrec := ih (followCountRow u a)
      have h1 : applyFollowActions u (a :: acts) = applyFollowActions (followCountRow u a) acts := rfl
      have h2 : followerDeltaSum (a :: acts) = followerDelta a + followerDeltaSum acts := by
        simp [followerDeltaSum]
      have h3 : followingDeltaSum (a :: acts) = followingDelta a + followingDeltaSum acts := by
        simp [followingDeltaSum]
      rw [h1, h2, h3]
      omega

theorem postCountRow_nonneg (p : Post) (a : Action)
    (hl : 0 ≤ p.likeCount) (hc : 0 ≤ p.commentCount) (hs : 0 ≤ p.shareCount) :
    0 ≤ (postCountRow p a).likeCount ∧ 0 ≤ (postCountRow p a).commentCount ∧
      0 ≤ (postCountRow p a).shareCount := by
  cases a <;> simp [postCountRow] <;> omega

theorem postCountRow_likeCount (p : Post) (a : Action) (h : a ≠ Action.unliked) :
    (postCountRow p a).likeCount = p.likeCount + likeDelta a := by
  cases a <;> first
    | exact absurd rfl h
    | simp [postCountRow, likeDelta]

theorem followCountTable_comm (users : List User) (n1 n2 : String) (a1 a2 : Action) :
    followCountTable (followCountTable users n1 a1) n2 a2 =
      followCountTable (followCountTable users n2 a2) n1 a1 := by
  simp only [followCountTable, List.map_map]
  apply List.map_congr_left
  intro u _
  simp only [Function.comp_apply]
  have pres : ∀ (a : Action) (v : User),
      (followCountRow v a).username = v.username ∧ (followCountRow v a).deletedAt = v.deletedAt :=
    fun a v => ⟨(followCountRow_counts v a).2.2.1, (followCountRow_counts v a).2.2.2⟩
  by_cases h1 : u.username = n1 ∧ u.deletedAt = none <;>
    by_cases h2 : u.username = n2 ∧ u.deletedAt = none
  · rw [if_pos h1, if_pos h2,
        if_pos (show (followCountRow u a1).username = n2 ∧ (followCountRow u a1).deletedAt = none from
          ⟨by rw [(pres a1 u).1]; exact h2.1, by rw [(pres a1 u).2]; exact h2.2⟩),
        if_pos (show (followCountRow u a2).username = n1 ∧ (followCountRow u a2).deletedAt = none from
          ⟨by rw [(pres a2 u).1]; exact h1.1, by rw [(pres a2 u).2]; exact h1.2⟩)]
    exact followCountRow_comm u a1 a2
  · rw [if_neg h2, if_pos h1,
        if_neg (show ¬((followCountRow u a1).username = n2 ∧ (followCountRow u a1).deletedAt = none) from
          fun hcc => h2 ⟨by rw [← (pres a1 u).1]; exact hcc.1, by rw [← (pres a1 u).2]; exact hcc.2⟩)]
  · rw [if_neg h1, if_pos h2,
        if_neg (show ¬((followCountRow u a2).username = n1 ∧ (followCountRow u a2).deletedAt = none) from
          fun hcc => h1 ⟨by rw [← (pres a2 u).1]; exact hcc.1, by rw [← (pres a2 u).2]; exact hcc.2⟩)]
  · rw [if_neg h1, if_neg h2, if_neg h1]

/-! ## Claim C1: counter saturation at zero -/

/-- C1 as stated is false on the code: `userRepository.UpdateFollowCount`
subtracts without a clamp, so decrementing `follower_count` of a user
whose stored value is zero yields -1, strictly below zero. -/
theorem user_counter_goes_negative :
    updateFollowCount [mkUser 1 "alice"] "alice" Action.unfollowed =
      .ok [{ id := 1, username := "alice", fullName := "", avatarUrl := "",
             isVerified := false, isPrivate := false, followingCount := 0,
             followerCount := -1, postCount := 0, createdAt := 0, deletedAt := none }] ∧
    (mkUser 1 "alice").followerCount = 0 ∧ ¬((0 : Int) ≤ -1) :=
  ⟨rfl, rfl, by decide⟩

/-- C1 (amended): only the Post counters of `postRepository.UpdatePostCount`
saturate: `like_count` and `comment_count` decrements go through
`GREATEST(col - 1, 0)`, so a decrement at zero yields exactly zero and no
sequence of adjustments starting from non-negative counters drives
`like_count`, `comment_count` or `share_count` below zero; the User
counters of `userRepository.UpdateFollowCount` and
`userRepository.UpdatePostCount` are not clamped and can go negative. -/
theorem post_counters_saturate (p : Post) (acts : List Action)
    (hl : 0 ≤ p.likeCount) (hc : 0 ≤ p.commentCount) (hs : 0 ≤ p.shareCount) :
    (0 ≤ (applyPostActions p acts).likeCount ∧
     0 ≤ (applyPostActions p acts).commentCount ∧
     0 ≤ (applyPostActions p acts).shareCount) ∧
    (postCountRow { p with likeCount := 0 } Action.unliked).likeCount = 0 ∧
    (postCountRow { p with commentCount := 0 } Action.uncommented).commentCount = 0 := by
  refine ⟨?_, by simp [postCountRow], by simp [postCountRow]⟩
  induction acts generalizing p with
  | nil => exact ⟨hl, hc, hs⟩
  | cons a acts ih =>
      have hrow := postCountRow_nonneg p a hl hc hs
      exact ih (postCountRow p a) hrow.1 hrow.2.1 hrow.2.2

/-- Witness for `post_counters_saturate` at a concrete post and sequence. -/
theorem post_counters_saturate_witness :
    (0 ≤ (applyPostActions (mkPost 1 1 0) [Action.unliked, Action.liked, Action.unliked, Action.unliked]).likeCount ∧
     0 ≤ (applyPostActions (mkPost 1 1 0) [Action.unliked, Action.liked, Action.unliked, Action.unliked]).commentCount ∧
     0 ≤ (applyPostActions (mkPost 1 1 0) [Action.unliked, Action.liked, Action.unliked, Action.unliked]).shareCount) ∧
    (postCountRow { mkPost 1 1 0 with likeCount := 0 } Action.unliked).likeCount = 0 ∧
    (postCountRow { mkPost 1 1 0 with commentCount := 0 } Action.uncommented).commentCount = 0 :=
  post_counters_saturate (mkPost 1 1 0)
    [Action.unliked, Action.liked, Action.unliked, Action.unliked]
    (by decide) (by decide) (by decide)

/-! ## Claim C4: concurrent counter adjustments -/

/-- C4 as stated is false on the code: with the `GREATEST` clamp the final
value of `like_count` is order-dependent and need not equal the initial
value plus the algebraic sum of the deltas clamped at zero.  Two
adjustments with deltas -1 and +1 on a post at zero leave 1 in one
serialization and 0 in the other, while the clamped algebraic sum is 0. -/
theorem clamped_counter_order_dependent :
    (applyPostActions (mkPost 1 1 0) [Action.unliked, Action.liked]).likeCount = 1 ∧
    (applyPostActions (mkPost 1 1 0) [Action.liked, Action.unliked]).likeCount = 0 ∧
    (mkPost 1 1 0).likeCount = 0 ∧
    likeDeltaSum [Action.unliked, Action.liked] = 0 ∧
    max ((mkPost 1 1 0).likeCount + likeDeltaSum [Action.unliked, Action.liked]) 0 = 0 ∧
    (1 : Int) ≠ 0 := by decide

/-- C4 (amended): every adjustment is one atomic `UPDATE`, so in every
serialization all of them are applied (none lost): the unclamped User
counters end at the initial value plus the algebraic sum of the deltas in
every order; the clamped `like_count` ends at the initial value plus the
sum whenever no decrement occurs; one-row adjustments commute, and
adjustments addressing different usernames (or different fields) commute
at the table level, so they may interleave freely.  Only a clamped
decrement that hits the zero floor makes the outcome order-dependent. -/
theorem counter_adjust_interleavings :
    (∀ (u : User) (acts : List Action),
        (applyFollowActions u acts).followerCount = u.followerCount + followerDeltaSum acts ∧
        (applyFollowActions u acts).followingCount = u.followingCount + followingDeltaSum acts) ∧
    (∀ (u : User) (acts1 acts2 : List Action), acts1.Perm acts2 →
        (applyFollowActions u acts1).followerCount =
          (applyFollowActions u acts2).followerCount) ∧
    (∀ (p : Post) (acts : List Action), (∀ a ∈ acts, a ≠ Action.unliked) →
        (applyPostActions p acts).likeCount = p.likeCount + likeDeltaSum acts) ∧
    (∀ (u : User) (a1 a2 : Action),
        followCountRow (followCountRow u a1) a2 = followCountRow (followCountRow u a2) a1) ∧
    (∀ (users : List User) (n1 n2 : String) (a1 a2 : Action),
        followCountTable (followCountTable users n1 a1) n2 a2 =
          followCountTable (followCountTable users n2 a2) n1 a1) := by
  refine ⟨fun u acts => applyFollowActions_counts u acts, ?_, ?_, followCountRow_comm,
    followCountTable_comm⟩
  · intro u acts1 acts2 hperm
    rw [(applyFollowActions_counts u acts1).1, (applyFollowActions_counts u acts2).1]
    have : followerDeltaSum acts1 = followerDeltaSum acts2 :=
      List.Perm.sum_eq (List.Perm.map followerDelta hperm)
    rw [this]
  · intro p acts h
    induction acts generalizing p with
    | nil => simp [applyPostActions, likeDeltaSum]
    | cons a acts ih =>
        have h1 : applyPostActions p (a :: acts) = applyPostActions (postCountRow p a) acts := rfl
        have h2 : likeDeltaSum (a :: acts) = likeDelta a + likeDeltaSum acts := by
          simp [likeDeltaSum]
        rw [h1, h2, ih (postCountRow p a) (fun b hb => h b (List.mem_cons_of_mem a hb)),
          postCountRow_likeCount p a (h a (List.mem_cons_self a acts))]
        omega

/-- Witness for `counter_adjust_interleavings` at concrete inputs. -/
theorem counter_adjust_interleavings_witness :
    ((applyFollowActions (mkUser 1 "alice") [Action.followed, Action.followed, Action.unfollowed]).followerCount =
      (mkUser 1 "alice").followerCount +
        followerDeltaSum [Action.followed, Action.followed, Action.unfollowed]) ∧
    ((applyPostActions (mkPost 1 1 0) [Action.liked, Action.liked]).likeCount =
      (mkPost 1 1 0).likeCount + likeDeltaSum [Action.liked, Action.liked]) :=
  ⟨(counter_adjust_interleavings.1 (mkUser 1 "alice")
      [Action.followed, Action.followed, Action.unfollowed]).1,
   counter_adjust_interleavings.2.2.1 (mkPost 1 1 0)
      [Action.liked, Action.liked] (by decide)⟩

/-! ## Claim C5: explore-feed ranking -/

/-- C5: the code cannot return the ranked explore feed at all: the
`SELECT` list of `GetExploreFeed` references the aliases
`like_counts.count` and `comment_counts.count`, but no `FROM`/`JOIN`
clause of the query binds `like_counts` or `comment_counts`, so the
generated SQL is rejected by every supported engine and the call errors
on every request.  The score expression itself carries the claimed
weights: (10,0,0), (0,2,0), (0,0,5) score 30, 10, 10, the first ranks
highest and the two ties order by creation time descending. -/
theorem explore_feed_select_references_unbound_aliases :
    exploreQueryValid = false ∧
    "like_counts" ∈ exploreSelectAliases ∧ "like_counts" ∉ exploreBoundAliases ∧
    "comment_counts" ∈ exploreSelectAliases ∧ "comment_counts" ∉ exploreBoundAliases ∧
    engagementScore 10 0 0 = 30 ∧ engagementScore 0 2 0 = 10 ∧ engagementScore 0 0 5 = 10 ∧
    exploreOrderRel (engagementScore 10 0 0, 1) (engagementScore 0 2 0, 3) = true ∧
    exploreOrderRel (engagementScore 0 2 0, 3) (engagementScore 0 0 5, 2) = true ∧
    exploreOrderRel (engagementScore 0 0 5, 2) (engagementScore 0 2 0, 3) = false := by
  decide

/-! ## Claim C3: fan-out on publish -/

/-- Feed rows are untouched by one follow-graph mutation. -/
theorem applyFollowOp_feeds (db : DB) (op : FollowOp) : (applyFollowOp db op).feeds = db.feeds := by
  cases op with
  | follow a b now =>
      simp only [applyFollowOp, followCreate]
      split
      · rfl
      · split
        · rfl
        · rfl
  | unfollow a b now => rfl

/-- Feed rows are untouched by any sequence of follow-graph mutations. -/
theorem applyFollowOps_feeds (db : DB) (ops : List FollowOp) :
    (applyFollowOps db ops).feeds = db.feeds := by
  induction ops generalizing db with
  | nil => rfl
  | cons op ops ih =>
      have h1 : applyFollowOps db (op :: ops) = applyFollowOps (applyFollowOp db op) ops := rfl
      rw [h1, ih (applyFollowOp db op), applyFollowOp_feeds]

/-- `entriesFor` only reads the feed table. -/
theorem entriesFor_eq_of_feeds_eq {db1 db2 : DB} (h : db1.feeds = db2.feeds) (pid : Int) :
    entriesFor db1 pid = entriesFor db2 pid := by
  simp [entriesFor, h]

/-- C3: publishing a post `p` whose id is fresh inserts exactly one
`ActivityFeed` row per live follower of the author — `|F|` rows referencing
`p`, each carrying (subscriber = follower, post id, author id, post
creation timestamp); zero followers insert zero rows without failing, and
no later follow or unfollow changes the set of entries referencing `p`. -/
theorem publish_fanout_spec (db : DB) (p : Post)
    (hfresh : entriesFor db p.id = []) :
    entriesFor (publishPost db p) p.id = (followersOf db p.userId).map (fanoutEntry p) ∧
    (entriesFor (publishPost db p) p.id).length = (followersOf db p.userId).length ∧
    (∀ e ∈ entriesFor (publishPost db p) p.id,
        e.postId = p.id ∧ e.authorId = p.userId ∧ e.postCreated = p.createdAt ∧
        ∃ f ∈ followersOf db p.userId, e.userId = f.followerId) ∧
    (followersOf db p.userId = [] → (publishPost db p).feeds = db.feeds) ∧
    (∀ ops : List FollowOp,
        entriesFor (applyFollowOps (publishPost db p) ops) p.id =
          entriesFor (publishPost db p) p.id) := by
  have hfresh2 : db.feeds.filter (fun e => decide (e.postId = p.id)) = [] := hfresh
  have hall : ∀ e ∈ (followersOf db p.userId).map (fanoutEntry p),
      (decide (e.postId = p.id)) = true := by
    intro e he
    rcases List.mem_map.mp he with ⟨f, _, rfl⟩
    simp [fanoutEntry]
  have hmain : entriesFor (publishPost db p) p.id =
      (followersOf db p.userId).map (fanoutEntry p) := by
    calc entriesFor (publishPost db p) p.id
        = (db.feeds ++ (followersOf db p.userId).map (fanoutEntry p)).filter
            (fun e => decide (e.postId = p.id)) := rfl
      _ = db.feeds.filter (fun e => decide (e.postId = p.id)) ++
            ((followersOf db p.userId).map (fanoutEntry p)).filter
              (fun e => decide (e.postId = p.id)) := List.filter_append _ _
      _ = [] ++ (followersOf db p.userId).map (fanoutEntry p) := by
            rw [hfresh2, List.filter_eq_self.mpr hall]
      _ = (followersOf db p.userId).map (fanoutEntry p) := List.nil_append _
  refine ⟨hmain, by rw [hmain, List.length_map], ?_, ?_, ?_⟩
  · intro e he
    rw [hmain] at he
    rcases List.mem_map.mp he with ⟨f, hf, rfl⟩
    exact ⟨rfl, rfl, rfl, f, hf, rfl⟩
  · intro h0
    simp [publishPost, h0]
  · intro ops
    exact entriesFor_eq_of_feeds_eq (applyFollowOps_feeds (publishPost db p) ops) p.id

/-- Witness for `publish_fanout_spec`: author 2 of `fanoutDB` has the two
live followers 1 and 3; publishing post 20 writes exactly their two
entries. -/
theorem publish_fanout_spec_witness :
    entriesFor (publishPost fanoutDB (mkPost 20 2 50)) (mkPost 20 2 50).id =
      (followersOf fanoutDB (mkPost 20 2 50).userId).map (fanoutEntry (mkPost 20 2 50)) ∧
    (entriesFor (publishPost fanoutDB (mkPost 20 2 50)) (mkPost 20 2 50).id).length =
      (followersOf fanoutDB (mkPost 20 2 50).userId).length ∧
    (∀ e ∈ entriesFor (publishPost fanoutDB (mkPost 20 2 50)) (mkPost 20 2 50).id,
        e.postId = (mkPost 20 2 50).id ∧ e.authorId = (mkPost 20 2 50).userId ∧
        e.postCreated = (mkPost 20 2 50).createdAt ∧
        ∃ f ∈ followersOf fanoutDB (mkPost 20 2 50).userId, e.userId = f.followerId) ∧
    (followersOf fanoutDB (mkPost 20 2 50).userId = [] →
      (publishPost fanoutDB (mkPost 20 2 50)).feeds = fanoutDB.feeds) ∧
    (∀ ops : List FollowOp,
        entriesFor (applyFollowOps (publishPost fanoutDB (mkPost 20 2 50)) ops)
            (mkPost 20 2 50).id =
          entriesFor (publishPost fanoutDB (mkPost 20 2 50)) (mkPost 20 2 50).id) :=
  publish_fanout_spec fanoutDB (mkPost 20 2 50) (by decide)

/-! ## Claim C2: reaction target mutual exclusivity -/

/-- C2: creating a Reaction with both targets null or both non-null always
fails with the invalid-target error (`gorm.ErrInvalidData` from
`Reaction.BeforeCreate`) and leaves the store untouched — no reaction row,
no counter adjustment; creation succeeds exactly when one of the two
target fields is non-null. -/
theorem reaction_target_exclusivity (db : DB) (r : Reaction) :
    (createReaction db r = (db, some Err.invalidData) ↔
      ((r.postId = none ∧ r.commentId = none) ∨ (r.postId ≠ none ∧ r.commentId ≠ none))) ∧
    ((createReaction db r).2 = none ↔
      ((r.postId ≠ none ∧ r.commentId = none) ∨ (r.postId = none ∧ r.commentId ≠ none))) := by
  rcases hp : r.postId with - | pid <;> rcases hc : r.commentId with - | cid <;>
    simp [createReaction, reactionBeforeCreate, hp, hc]

/-- Witness for `reaction_target_exclusivity`: a both-null reaction is
rejected on the empty store with zero side effects, a post-only like is
accepted. -/
theorem reaction_target_exclusivity_witness :
    createReaction emptyDB orphanReaction = (emptyDB, some Err.invalidData) ∧
    createReaction emptyDB dualReaction = (emptyDB, some Err.invalidData) ∧
    (createReaction emptyDB (mkPostReaction 5 1 10 .like)).2 = none :=
  ⟨(reaction_target_exclusivity emptyDB orphanReaction).1.mpr (by decide),
   (reaction_target_exclusivity emptyDB dualReaction).1.mpr (by decide),
   (reaction_target_exclusivity emptyDB (mkPostReaction 5 1 10 .like)).2.mpr (by decide)⟩

/-! ## Claim C8: follow constraint violations -/

/-- C8: a self-follow is always rejected by `Follow.BeforeCreate` with a
constraint-violation error and no edge is created; a follow whose directed
edge already exists in the `follows` table is rejected by the unique index
with a constraint-violation error and no edge is created. -/
theorem follow_constraint_violations (db : DB) (a b : Int) (now : Nat) :
    (a = b → followCreate db a b now = (db, some Err.invalidData) ∧
      Err.isConstraintViolation Err.invalidData = true) ∧
    ((∃ f ∈ db.follows, f.followerId = a ∧ f.followingId = b) →
      (followCreate db a b now).1 = db ∧
      ∃ e, (followCreate db a b now).2 = some e ∧ Err.isConstraintViolation e = true) := by
  constructor
  · intro hab
    exact ⟨by simp [followCreate, followBeforeCreate, hab], rfl⟩
  · rintro ⟨f, hf, hfa, hfb⟩
    by_cases hab : a = b
    · refine ⟨by simp [followCreate, followBeforeCreate, hab], Err.invalidData, ?_, rfl⟩
      simp [followCreate, followBeforeCreate, hab]
    · have hex : ∃ x ∈ db.follows, x.followerId = a ∧ x.followingId = b := ⟨f, hf, hfa, hfb⟩
      refine ⟨by simp [followCreate, followBeforeCreate, hab, hex], Err.uniqueViolation, ?_, rfl⟩
      simp [followCreate, followBeforeCreate, hab, hex]

/-- Witness for `follow_constraint_violations`: a self-follow of user 3 and
a duplicate of the existing edge 1 → 2 both fail with constraint
violations on the sample store. -/
theorem follow_constraint_violations_witness :
    (followCreate followEdgeDB 3 3 5 = (followEdgeDB, some Err.invalidData) ∧
      Err.isConstraintViolation Err.invalidData = true) ∧
    ((followCreate followEdgeDB 1 2 5).1 = followEdgeDB ∧
      ∃ e, (followCreate followEdgeDB 1 2 5).2 = some e ∧ Err.isConstraintViolation e = true) :=
  ⟨(follow_constraint_violations followEdgeDB 3 3 5).1 rfl,
   (follow_constraint_violations followEdgeDB 1 2 5).2
     ⟨{ followerId := 1, followingId := 2, createdAt := 0, deletedAt := none },
       by decide, by decide, by decide⟩⟩

/-! ## Claim C10: unfollow of a missing edge -/

/-- C10: when no live follow edge (followerId, followingId) exists — never
created or already soft-deleted — `followRepository.Unfollow` succeeds
with no error and changes no state. -/
theorem unfollow_missing_edge_noop (db : DB) (a b : Int) (now : Nat)
    (h : ∀ f ∈ db.follows, ¬(f.followerId = a ∧ f.followingId = b ∧ f.deletedAt = none)) :
    unfollowRepo db a b now = (db, none) := by
  have hmap : (db.follows.map fun f =>
      if f.followerId = a ∧ f.followingId = b ∧ f.deletedAt = none then
        { f with deletedAt := some now }
      else f) = db.follows := by
    calc (db.follows.map fun f =>
            if f.followerId = a ∧ f.followingId = b ∧ f.deletedAt = none then
              { f with deletedAt := some now }
            else f)
        = db.follows.map id := List.map_congr_left fun f hf => by rw [if_neg (h f hf)]; rfl
      _ = db.follows := List.map_id db.follows
  simp only [unfollowRepo, hmap]

/-- Witness for `unfollow_missing_edge_noop`: on a store where the only
1 → 2 edge is already soft-deleted, unfollowing 1 → 2 is a no-op without
error. -/
theorem unfollow_missing_edge_noop_witness :
    unfollowRepo unfollowedDB 1 2 9 = (unfollowedDB, none) :=
  unfollow_missing_edge_noop unfollowedDB 1 2 9 (by decide)

/-! ## Claims C6 and C9: home timeline join and the like flag -/

/-- Every row produced by the home-timeline join satisfies the join and
filter conditions of the query (soundness, no uniqueness needed). -/
theorem userFeedRows_forward (engine : DatabaseType) (db : DB) (uid : Int) (r : FeedPost)
    (h : r ∈ userFeedRows engine db uid) :
    r.entry ∈ db.feeds ∧ r.entry.userId = uid ∧ r.entry.deletedAt = none ∧
    r.post ∈ db.posts ∧ r.post.id = r.entry.postId ∧ r.post.deletedAt = none ∧
    r.author ∈ db.users ∧ r.author.id = r.post.userId ∧ r.author.deletedAt = none ∧
    r.hasUserLiked = hasLikeReaction engine db uid r.entry.postId := by
  rcases List.mem_filterMap.mp h with ⟨e, he, hrow⟩
  rcases List.mem_filter.mp he with ⟨hef, hcond⟩
  have hcond2 := of_decide_eq_true hcond
  rw [feedRowOf] at hrow
  rcases Option.bind_eq_some.mp hrow with ⟨p, hfp, hmap⟩
  rcases Option.map_eq_some'.mp hmap with ⟨u, hfu, hr⟩
  subst hr
  have hp1 := find?_decide_prop hfp
  have hp2 := List.mem_of_find?_eq_some hfp
  have hu1 := find?_decide_prop hfu
  have hu2 := List.mem_of_find?_eq_some hfu
  exact ⟨hef, hcond2.1, hcond2.2, hp2, hp1.1, hp1.2, hu2, hu1.1, hu1.2, rfl⟩

/-- Characterization of the home-timeline join row set: under unique post
and user ids a row is produced exactly when its components satisfy the
join and filter conditions of the query. -/
theorem userFeedRows_mem (engine : DatabaseType) (db : DB) (uid : Int)
    (hp : (db.posts.map Post.id).Nodup) (hu : (db.users.map User.id).Nodup)
    (r : FeedPost) :
    r ∈ userFeedRows engine db uid ↔
      (r.entry ∈ db.feeds ∧ r.entry.userId = uid ∧ r.entry.deletedAt = none ∧
       r.post ∈ db.posts ∧ r.post.id = r.entry.postId ∧ r.post.deletedAt = none ∧
       r.author ∈ db.users ∧ r.author.id = r.post.userId ∧ r.author.deletedAt = none ∧
       r.hasUserLiked = hasLikeReaction engine db uid r.entry.postId) := by
  constructor
  · exact userFeedRows_forward engine db uid r
  · rintro ⟨hef, he1, he2, hpm, hp1, hp2, hum, hu1, hu2, hlike⟩
    apply List.mem_filterMap.mpr
    refine ⟨r.entry, List.mem_filter.mpr ⟨hef, decide_eq_true ⟨he1, he2⟩⟩, ?_⟩
    have hfp : (db.posts.find? fun q =>
        decide (q.id = r.entry.postId ∧ q.deletedAt = none)) = some r.post := by
      apply find?_eq_some_of_unique hpm (decide_eq_true ⟨hp1, hp2⟩)
      intro y hy hpy
      have hyp := of_decide_eq_true hpy
      exact List.inj_on_of_nodup_map hp hy hpm (by rw [hyp.1, hp1])
    have hfu : (db.users.find? fun v =>
        decide (v.id = r.post.userId ∧ v.deletedAt = none)) = some r.author := by
      apply find?_eq_some_of_unique hum (decide_eq_true ⟨hu1, hu2⟩)
      intro y hy hpy
      have hyp := of_decide_eq_true hpy
      exact List.inj_on_of_nodup_map hu hy hum (by rw [hyp.1, hu1])
    rw [feedRowOf, hfp, Option.some_bind, hfu, Option.map_some']
    rw [← hlike]

/-- The comparison of `ORDER BY post_created DESC` is total. -/
theorem feedDescRel_total (a b : FeedPost) : feedDescRel a b = true ∨ feedDescRel b a = true := by
  simp [feedDescRel]
  omega

/-- The comparison of `ORDER BY post_created DESC` is transitive. -/
theorem feedDescRel_trans (a b c : FeedPost) :
    feedDescRel a b = true → feedDescRel b c = true → feedDescRel a c = true := by
  simp [feedDescRel]
  omega

/-- C6: the spec's home-timeline contract is the clear intent, but the
code only meets its row-set part on the engines where the query executes
at all.  On MySQL and SQLite, `GetUserFeed` returns, sorted by the post
creation timestamp descending and paginated by (limit, offset), exactly
the join of the subscriber's live feed entries with the live post and
live author rows — a post soft-deleted after fan-out drops out through
the join even though its feed entries are retained.  On PostgreSQL the
`user_likes.type = 'like'` comparison against the integer type column
aborts the query at plan time, so every call errors instead of returning
these rows (`likeJoinQueryRuns .postgres = false`). -/
theorem user_feed_spec (engine : DatabaseType) (db : DB) (uid : Int) (lim off : Nat)
    (hrun : likeJoinQueryRuns engine = true)
    (hp : (db.posts.map Post.id).Nodup) (hu : (db.users.map User.id).Nodup) :
    (getUserFeed engine db uid lim off).Pairwise
      (fun a b => b.entry.postCreated ≤ a.entry.postCreated) ∧
    (∀ r : FeedPost, r ∈ userFeedRows engine db uid ↔
      (r.entry ∈ db.feeds ∧ r.entry.userId = uid ∧ r.entry.deletedAt = none ∧
       r.post ∈ db.posts ∧ r.post.id = r.entry.postId ∧ r.post.deletedAt = none ∧
       r.author ∈ db.users ∧ r.author.id = r.post.userId ∧ r.author.deletedAt = none ∧
       r.hasUserLiked = hasLikeReaction engine db uid r.entry.postId)) ∧
    (∀ r ∈ getUserFeed engine db uid lim off,
        r.entry.userId = uid ∧ r.entry.deletedAt = none ∧ r.post.deletedAt = none ∧
          r.post.id = r.entry.postId) ∧
    getUserFeed engine db uid lim off =
      ((sortBy feedDescRel (userFeedRows engine db uid)).drop off).take lim ∧
    likeJoinQueryRuns DatabaseType.postgres = false := by
  have hsub : List.Sublist (getUserFeed engine db uid lim off)
      (sortBy feedDescRel (userFeedRows engine db uid)) :=
    List.Sublist.trans (List.take_sublist _ _) (List.drop_sublist _ _)
  refine ⟨?_, userFeedRows_mem engine db uid hp hu, ?_, rfl, rfl⟩
  · have hsorted := pairwise_sortBy feedDescRel feedDescRel_total feedDescRel_trans
      (userFeedRows engine db uid)
    have himp : (sortBy feedDescRel (userFeedRows engine db uid)).Pairwise
        (fun a b => b.entry.postCreated ≤ a.entry.postCreated) := by
      refine hsorted.imp ?_
      intro a b hab
      exact of_decide_eq_true hab
    exact List.Pairwise.sublist hsub himp
  · intro r hr
    have hmem : r ∈ userFeedRows engine db uid :=
      (mem_sortBy feedDescRel (userFeedRows engine db uid) r).mp (hsub.subset hr)
    have hfwd := userFeedRows_forward engine db uid r hmem
    exact ⟨hfwd.2.1, hfwd.2.2.1, hfwd.2.2.2.2.2.1, hfwd.2.2.2.2.1⟩

/-- Witness for `user_feed_spec` on `timelineDB` under SQLite (the code's
fallback engine): subscriber 1 has two live feed entries but the post of
the second is soft-deleted, so the paginated result keeps only the
live-post row. -/
theorem user_feed_spec_witness :
    (getUserFeed DatabaseType.sqlite timelineDB 1 10 0).Pairwise
      (fun a b => b.entry.postCreated ≤ a.entry.postCreated) ∧
    (∀ r : FeedPost, r ∈ userFeedRows DatabaseType.sqlite timelineDB 1 ↔
      (r.entry ∈ timelineDB.feeds ∧ r.entry.userId = 1 ∧ r.entry.deletedAt = none ∧
       r.post ∈ timelineDB.posts ∧ r.post.id = r.entry.postId ∧ r.post.deletedAt = none ∧
       r.author ∈ timelineDB.users ∧ r.author.id = r.post.userId ∧ r.author.deletedAt = none ∧
       r.hasUserLiked = hasLikeReaction DatabaseType.sqlite timelineDB 1 r.entry.postId)) ∧
    (∀ r ∈ getUserFeed DatabaseType.sqlite timelineDB 1 10 0,
        r.entry.userId = 1 ∧ r.entry.deletedAt = none ∧ r.post.deletedAt = none ∧
          r.post.id = r.entry.postId) ∧
    getUserFeed DatabaseType.sqlite timelineDB 1 10 0 =
      ((sortBy feedDescRel (userFeedRows DatabaseType.sqlite timelineDB 1)).drop 0).take 10 ∧
    likeJoinQueryRuns DatabaseType.postgres = false :=
  user_feed_spec DatabaseType.sqlite timelineDB 1 10 0 rfl (by decide) (by decide)

/-- `ReactionType.String` sends exactly `like` to the SQL literal `'like'`
that the join compares against — the intended correspondence the stored
integer column breaks. -/
theorem reactionTypeString_eq_like (t : ReactionType) :
    reactionTypeString t = "like" ↔ t = ReactionType.like := by
  cases t <;> simp [reactionTypeString]

/-- C9 is a code bug: the claim states the spec's clear intent — the flag
true iff the viewer holds a live `like` on the post — but the `type`
column stores the raw `uint32` (a like is the integer 1, never the text
`'like'`), so the comparison `user_likes.type = 'like'` never matches a
stored like on any engine: MySQL coerces the literal to 0 (matching only
a stored `unknown`), SQLite compares integer to text as unequal, and
PostgreSQL rejects the whole query.  Concretely, on `timelineDB` viewer 1
holds a live like on post 10, yet the returned row carries
`has_user_liked = false` on both executing engines. -/
theorem has_user_liked_never_set_by_like :
    reactionTypeStored ReactionType.like = 1 ∧
    typeColEqLikeLit DatabaseType.mysql ReactionType.like = false ∧
    typeColEqLikeLit DatabaseType.sqlite ReactionType.like = false ∧
    typeColEqLikeLit DatabaseType.mysql ReactionType.unknown = true ∧
    likeJoinQueryRuns DatabaseType.postgres = false ∧
    (∃ rx ∈ timelineDB.reactions, rx.userId = 1 ∧ rx.postId = some 10 ∧
      rx.type = ReactionType.like ∧ rx.deletedAt = none) ∧
    hasLikeReaction DatabaseType.mysql timelineDB 1 10 = false ∧
    hasLikeReaction DatabaseType.sqlite timelineDB 1 10 = false ∧
    (∀ r ∈ getUserFeed DatabaseType.mysql timelineDB 1 10 0, r.hasUserLiked = false) ∧
    (∀ r ∈ getUserFeed DatabaseType.sqlite timelineDB 1 10 0, r.hasUserLiked = false) := by
  decide

/-! ## Claim C7: thread assembly -/

/-- The comparison of `ORDER BY comments.created_at ASC` is total. -/
theorem commentAscRel_total (a b : Comment × User) :
    commentAscRel a b = true ∨ commentAscRel b a = true := by
  simp [commentAscRel]
  omega

/-- The comparison of `ORDER BY comments.created_at ASC` is transitive. -/
theorem commentAscRel_trans (a b c : Comment × User) :
    commentAscRel a b = true → commentAscRel b c = true → commentAscRel a c = true := by
  simp [commentAscRel]
  omega

/-- Each fetched comment level is sorted by creation time ascending. -/
theorem commentLevel_sorted (db : DB) (pid : Int) (parent : Option Int) :
    (commentLevel db pid parent).Pairwise (fun a b => a.1.createdAt ≤ b.1.createdAt) := by
  rw [commentLevel]
  refine List.Pairwise.imp ?_
    (pairwise_sortBy commentAscRel commentAscRel_total commentAscRel_trans _)
  intro a b hab
  exact of_decide_eq_true hab

/-- Siblings are sorted by creation time ascending at every level. -/
theorem getComments_sorted (fuel : Nat) (engine : DatabaseType) (db : DB) (pid uid : Int)
    (parent : Option Int) :
    (getCommentsWithReplies fuel engine db pid uid parent).Pairwise
      (fun a b => a.comment.createdAt ≤ b.comment.createdAt) := by
  cases fuel with
  | zero => simp [getCommentsWithReplies]
  | succ fuel =>
      rw [getCommentsWithReplies]
      apply List.pairwise_map.mpr
      exact commentLevel_sorted db pid parent

/-- Every node returned at a level is a live comment of the post with the
requested parent, carries the engine's evaluation of the like join, and
its replies are exactly the recursive fetch keyed by its own id. -/
theorem getComments_forward (fuel : Nat) (engine : DatabaseType) (db : DB) (pid uid : Int)
    (parent : Option Int) (n : CommentNode)
    (h : n ∈ getCommentsWithReplies (fuel + 1) engine db pid uid parent) :
    n.comment ∈ db.comments ∧ n.comment.postId = pid ∧ n.comment.deletedAt = none ∧
    n.comment.parentId = parent ∧ n.hasUserLiked = hasCommentLike engine db uid n.comment.id ∧
    n.replies = getCommentsWithReplies fuel engine db pid uid (some n.comment.id) := by
  rw [getCommentsWithReplies] at h
  rcases List.mem_map.mp h with ⟨cu, hcu, rfl⟩
  rw [commentLevel] at hcu
  have hcu2 := (mem_sortBy _ _ _).mp hcu
  rcases List.mem_filterMap.mp hcu2 with ⟨c, hc, hmap⟩
  rcases List.mem_filter.mp hc with ⟨hcm, hcond⟩
  have hcond2 := of_decide_eq_true hcond
  rcases Option.map_eq_some'.mp hmap with ⟨u, hfu, hcu3⟩
  subst hcu3
  exact ⟨hcm, hcond2.1, hcond2.2.1, hcond2.2.2, rfl, rfl⟩

/-- Every live comment of the post with the requested parent and a live
author appears as a node of the level. -/
theorem getComments_complete (fuel : Nat) (engine : DatabaseType) (db : DB) (pid uid : Int)
    (parent : Option Int) (c : Comment) (u : User) (hcm : c ∈ db.comments)
    (h1 : c.postId = pid) (h2 : c.deletedAt = none) (h3 : c.parentId = parent)
    (hfu : (db.users.find? fun v => decide (v.id = c.userId ∧ v.deletedAt = none)) = some u) :
    CommentNode.mk c u (hasCommentLike engine db uid c.id)
        (getCommentsWithReplies fuel engine db pid uid (some c.id)) ∈
      getCommentsWithReplies (fuel + 1) engine db pid uid parent := by
  rw [getCommentsWithReplies]
  apply List.mem_map.mpr
  refine ⟨(c, u), ?_, rfl⟩
  rw [commentLevel]
  apply (mem_sortBy _ _ _).mpr
  apply List.mem_filterMap.mpr
  refine ⟨c, List.mem_filter.mpr ⟨hcm, decide_eq_true ⟨h1, h2, h3⟩⟩, ?_⟩
  rw [hfu]
  rfl

/-- C7: the claimed forest shape is the clear intent, and on the engines
where the recursive comment query executes (MySQL, SQLite) the assembler
returns the forest of the post's top-level comments, each node
recursively carrying exactly its direct children with siblings ordered by
creation time ascending at every level; on the chain A(top) ← B ← C of
`threadDB` the result is the single node A with children [B], whose
children are [C].  The per-node like flag is the engine's evaluation of
the broken integer-vs-`'like'` join, and on PostgreSQL that join makes
every level query error, so `GetPostWithDetails` never returns the forest
there (`likeJoinQueryRuns .postgres = false`). -/
theorem thread_assembler_spec (engine : DatabaseType)
    (hrun : likeJoinQueryRuns engine = true) :
    (∀ (fuel : Nat) (db : DB) (pid uid : Int) (parent : Option Int),
        (getCommentsWithReplies fuel engine db pid uid parent).Pairwise
          (fun a b => a.comment.createdAt ≤ b.comment.createdAt)) ∧
    (∀ (fuel : Nat) (db : DB) (pid uid : Int) (parent : Option Int) (n : CommentNode),
        n ∈ getCommentsWithReplies (fuel + 1) engine db pid uid parent →
          n.comment ∈ db.comments ∧ n.comment.postId = pid ∧ n.comment.deletedAt = none ∧
          n.comment.parentId = parent ∧
          n.hasUserLiked = hasCommentLike engine db uid n.comment.id ∧
          n.replies = getCommentsWithReplies fuel engine db pid uid (some n.comment.id)) ∧
    (∀ (fuel : Nat) (db : DB) (pid uid : Int) (parent : Option Int) (c : Comment) (u : User),
        c ∈ db.comments → c.postId = pid → c.deletedAt = none → c.parentId = parent →
        (db.users.find? fun v => decide (v.id = c.userId ∧ v.deletedAt = none)) = some u →
          CommentNode.mk c u (hasCommentLike engine db uid c.id)
              (getCommentsWithReplies fuel engine db pid uid (some c.id)) ∈
            getCommentsWithReplies (fuel + 1) engine db pid uid parent) ∧
    assembleComments engine threadDB 1 9 =
      [CommentNode.mk (mkComment 1 1 7 none 10) (mkUser 7 "ann") false
        [CommentNode.mk (mkComment 2 1 8 (some 1) 20) (mkUser 8 "ben") false
          [CommentNode.mk (mkComment 3 1 7 (some 2) 30) (mkUser 7 "ann") false []]]] ∧
    likeJoinQueryRuns DatabaseType.postgres = false :=
  ⟨fun fuel => getComments_sorted fuel engine, fun fuel => getComments_forward fuel engine,
   fun fuel => getComments_complete fuel engine, by rfl, rfl⟩

/-- Witness for `thread_assembler_spec` under SQLite: the top-level node A
of `threadDB` is produced by the level fetch with its recursively
assembled replies. -/
theorem thread_assembler_spec_witness :
    CommentNode.mk (mkComment 1 1 7 none 10) (mkUser 7 "ann")
        (hasCommentLike DatabaseType.sqlite threadDB 9 1)
        (getCommentsWithReplies 2 DatabaseType.sqlite threadDB 1 9 (some 1)) ∈
      getCommentsWithReplies 3 DatabaseType.sqlite threadDB 1 9 none :=
  (thread_assembler_spec DatabaseType.sqlite rfl).2.2.1 2 threadDB 1 9 none
    (mkComment 1 1 7 none 10) (mkUser 7 "ann") (by decide) rfl rfl rfl (by rfl)

end SNS
